import Mathlib

/-!
Shallow embedding of `src/age_keygen_gui.py` (the `age-keygen-gui` repository).

The program shells out to the external `age-keygen` executable, scans its
combined stdout+stderr for a private key line (prefix `AGE-SECRET-KEY-`) and a
public key line (prefix `age1`, or a `# public key:` comment), optionally
re-invokes the executable with `-y` to derive a missing public key, and reports
progress and a final result through Qt signals.  The GUI layer guards
copy/save actions and writes key files (mode `0600` for the private key on
POSIX).

Subprocess invocations are modelled by an environment function from the exact
call description (argument vector, stdin payload, text mode, timeout) to an
outcome; all Python string operations used by the source (`strip`,
`startswith`, `splitlines`, `replace`, `lower`, `endswith`) are modelled as
structurally recursive functions on the character lists so that every
definition evaluates inside the kernel.
-/

namespace AgeKeygen

/-- Whitespace predicate used by Python `str.strip()` with no argument,
restricted to the ASCII range (space, tab, newline, carriage return,
vertical tab, form feed). -/
def pyWs (c : Char) : Bool :=
  c = ' ' || c = '\t' || c = '\n' || c = '\r' || c = '\x0b' || c = '\x0c'

/-- Model of Python `str.strip()`: drop leading and trailing whitespace. -/
def pyStrip (s : String) : String :=
  ⟨((s.data.dropWhile pyWs).reverse.dropWhile pyWs).reverse⟩

/-- Model of Python `str.startswith(pre)`. -/
def pyStartswith (s pre : String) : Bool :=
  pre.data.isPrefixOf s.data

/-- Model of Python `str.endswith(suf)`. -/
def pyEndswith (s suf : String) : Bool :=
  suf.data.isSuffixOf s.data

/-- Model of Python `str.lower()` (ASCII range). -/
def pyLower (s : String) : String :=
  ⟨s.data.map Char.toLower⟩

/-- Split a character list at newline characters; a list with `n` newline
characters yields `n + 1` segments. -/
def splitNlChars : List Char → List (List Char)
  | [] => [[]]
  | c :: cs =>
    if c = '\n' then [] :: splitNlChars cs
    else
      match splitNlChars cs with
      | [] => [[c]]
      | l :: ls => (c :: l) :: ls

/-- Model of Python `str.splitlines()`.  Python's `splitlines` also splits on
`\r\n` and `\r` and omits a final empty segment after a trailing newline; in
this program every produced line is passed through `strip()` before any prefix
test, so splitting only at `\n` (keeping a possible final empty segment, which
matches no prefix) yields the same scan results. -/
def pySplitLines (s : String) : List String :=
  (splitNlChars s.data).map (fun l => ⟨l⟩)

/-- Fuel-driven core of Python `str.replace(old, new)`: replace non-overlapping
occurrences left to right.  Each step consumes at least one character of the
subject, so fuel equal to the subject's length suffices for a non-empty
pattern (the only kind this program uses). -/
def replaceFuel (pat rep : List Char) : Nat → List Char → List Char
  | 0, l => l
  | _ + 1, [] => []
  | fuel + 1, c :: cs =>
    if pat.isPrefixOf (c :: cs) then
      rep ++ replaceFuel pat rep fuel (List.drop pat.length (c :: cs))
    else
      c :: replaceFuel pat rep fuel cs

/-- Model of Python `s.replace(old, new)` for non-empty `old`. -/
def pyReplace (s old new : String) : String :=
  ⟨replaceFuel old.data new.data s.data.length s.data⟩

/-!
String constants from `AgeKeyGeneratorWindow._load_strings` that the
worker and the copy/save actions consult (the apostrophes of the private-key
placeholder are written as the escape `\x27`).
-/

namespace Strings

def PLACEHOLDER_PRIVATE : String := "Click \x27Generate New Key Pair\x27 to create a Private Key..."

def PLACEHOLDER_PUBLIC : String := "The Public Key will be displayed here..."

def STATUS_SUCCESS : String := "Key Generation Successful!"

def STATUS_ERROR : String := "An Error Occurred"

def MSG_COPY_SUCCESS : String := "Copied to clipboard"

def MSG_SAVE_SUCCESS : String := "File saved successfully"

def MSG_NO_KEY : String := "Please generate a valid key first"

def ERROR_TITLE : String := "Error"

def WARNING_TITLE : String := "Warning"

def STATUS_INITIALIZING : String := "Initializing..."

def STATUS_RUNNING : String := "Executing age-keygen..."

def STATUS_EXTRACTING_PUBLIC : String := "Extracting Public Key..."

def STATUS_EXPORTING_PUBLIC : String := "Exporting Public Key..."

def STATUS_DONE : String := "Done!"

def ERROR_NO_PRIVATE_KEY : String := "No valid Private Key found"

def ERROR_EXPORT_PUBLIC : String := "Unable to derive Public Key"

def ERROR_TIMEOUT : String := "Operation timed out. Please try again."

def ERROR_SUBPROCESS : String := "age-keygen execution failed"

def ERROR_UNKNOWN : String := "An unexpected error occurred"

end Strings

/-- The stdin payload handed to `subprocess.run`: absent, a bytes object, or a
text string.  The worker's secondary invocation passes
`private_key.encode('utf-8')`, i.e. a bytes payload. -/
inductive SubprocInput
  | none
  | bytes (data : String)
  | str (data : String)
deriving DecidableEq

/-- Description of one `subprocess.run` invocation exactly as the source
constructs it: argument vector, stdin payload, `text=True` flag, and timeout
in seconds. -/
structure SubprocCall where
  args : List String
  input : SubprocInput
  textMode : Bool
  timeout : Nat
deriving DecidableEq

/-- Outcome of one subprocess invocation: the process completed with an exit
code and captured stdout/stderr, the timeout expired, or some other exception
was raised (carrying `str(e)`). -/
inductive SubprocResult
  | completed (exitcode : Int) (stdout stderr : String)
  | timedOut
  | raised (msg : String)
deriving DecidableEq

/-- The environment: what the operating system does for each subprocess
invocation the program makes. -/
def Env : Type := SubprocCall → SubprocResult

/-- Whether the stdin payload is a bytes object. -/
def SubprocInput.isBytes : SubprocInput → Bool
  | .bytes _ => true
  | _ => false

/-- Model of `subprocess.run`.  CPython rejects a `bytes` stdin payload when
the child's streams are opened in text mode (`text=True`): writing the payload
raises `TypeError` (or `AttributeError` from `input.encode` on POSIX) before
any output is collected.  The source's secondary invocation passes
`private_key.encode('utf-8')` together with `text=True`, so that call always
raises; every other invocation is decided by the environment. -/
def subprocessRun (env : Env) (c : SubprocCall) : SubprocResult :=
  if c.textMode && c.input.isBytes then
    SubprocResult.raised "bytes stdin payload is rejected for text-mode streams"
  else env c

/-- Qt signals emitted by `KeyGenerationWorker`. -/
inductive Event
  | started
  | progress (msg : String)
  | error (msg : String)
  | finished (privateKey publicKey errorMsg : String)
deriving DecidableEq

/-- Everything observable about one execution of `KeyGenerationWorker.run`:
the emitted signals in order, and the subprocess invocations made in order. -/
structure RunTrace where
  events : List Event
  calls : List SubprocCall
deriving DecidableEq

/-- The private-key scan of `KeyGenerationWorker.run` (lines 165-169 of the
source): first stripped line starting with `AGE-SECRET-KEY-`, else the initial
value `""`. -/
def extractPrivateLines : List String → String
  | [] => ""
  | l :: ls =>
    let line := pyStrip l
    if pyStartswith line "AGE-SECRET-KEY-" then line
    else extractPrivateLines ls

/-- The public-key scan of `KeyGenerationWorker.run` (lines 180-187 of the
source): on each stripped line, first test the `age1` prefix, then the
`# public key:` comment marker (taking the remainder after removing the
marker, stripped); stop at the first line passing either test; else `""`. -/
def extractPublicLines : List String → String
  | [] => ""
  | l :: ls =>
    let line := pyStrip l
    if pyStartswith line "age1" then line
    else if pyStartswith line "# public key:" then
      pyStrip (pyReplace line "# public key:" "")
    else extractPublicLines ls

/-- Private-key scan applied to a captured output string. -/
def extractPrivateKey (output : String) : String :=
  extractPrivateLines (pySplitLines output)

/-- Public-key scan applied to a captured output string. -/
def extractPublicKey (output : String) : String :=
  extractPublicLines (pySplitLines output)

/-- The primary invocation
`subprocess.run([self.age_keygen_path], capture_output=True, text=True, timeout=30, check=True)`. -/
def primaryCall (path : String) : SubprocCall :=
  { args := [path], input := SubprocInput.none, textMode := true, timeout := 30 }

/-- The secondary invocation
`subprocess.run([self.age_keygen_path, '-y'], input=private_key.encode('utf-8'), capture_output=True, text=True, timeout=10, check=True)`. -/
def deriveCall (path privateKey : String) : SubprocCall :=
  { args := [path, "-y"], input := SubprocInput.bytes privateKey, textMode := true,
    timeout := 10 }

/-- Model of `KeyGenerationWorker._derive_public_key`: run the secondary
invocation; on a clean zero exit return `result.stdout.strip()`; `check=True`
turns a non-zero exit into an exception, and every exception (including the
timeout and the text-mode `TypeError`) is swallowed into the fixed placeholder
`ERROR_EXPORT_PUBLIC`. -/
def derivePublicKey (env : Env) (path privateKey : String) : String :=
  match subprocessRun env (deriveCall path privateKey) with
  | SubprocResult.completed exitcode out _ =>
    if exitcode = 0 then pyStrip out else Strings.ERROR_EXPORT_PUBLIC
  | _ => Strings.ERROR_EXPORT_PUBLIC

/-- Model of `KeyGenerationWorker.run` (lines 152-207 of the source).  Emits
`started`, progress `Initializing`/`Running`, runs the primary invocation on
`output = result.stdout + result.stderr`, scans for the private key (failing
with `ERROR_NO_PRIVATE_KEY` if absent), emits `Extracting`, scans for the
public key, derives it via the secondary invocation when the scan came back
empty (emitting `Exporting`), then emits `Done` and `finished`.  `check=True`
maps a non-zero exit to the `CalledProcessError` branch, whose message is
`ERROR_SUBPROCESS + ": " + (e.stderr.strip() or 'unknown output')`; the
timeout and generic exception branches mirror the source's `except` clauses.
Every branch emits `error` (when failing) followed by a final `finished`. -/
def preEvents : List Event :=
  [Event.started, Event.progress Strings.STATUS_INITIALIZING,
   Event.progress Strings.STATUS_RUNNING]

/-- The body of `KeyGenerationWorker.run` after the primary invocation,
parametrised by that invocation's outcome (see `KeyGenerationWorker.run`
below, which supplies the outcome; the doc comment above `preEvents`
describes the whole translation). -/
def KeyGenerationWorker.runWith (env : Env) (path : String) :
    SubprocResult → RunTrace
  | SubprocResult.completed exitcode out err =>
    let pre : List Event := preEvents
    if exitcode = 0 then
      let output := out ++ err
      let private_key := extractPrivateKey output
      if private_key = "" then
        let m := Strings.ERROR_NO_PRIVATE_KEY
        { events := pre ++ [Event.error m, Event.finished "" "" m],
          calls := [primaryCall path] }
      else
        let public_key := extractPublicKey output
        if public_key = "" then
          let pk := derivePublicKey env path private_key
          { events := pre ++
              [Event.progress Strings.STATUS_EXTRACTING_PUBLIC,
               Event.progress Strings.STATUS_EXPORTING_PUBLIC,
               Event.progress Strings.STATUS_DONE,
               Event.finished private_key pk ""],
            calls := [primaryCall path, deriveCall path private_key] }
        else
          { events := pre ++
              [Event.progress Strings.STATUS_EXTRACTING_PUBLIC,
               Event.progress Strings.STATUS_DONE,
               Event.finished private_key public_key ""],
            calls := [primaryCall path] }
    else
      let m := Strings.ERROR_SUBPROCESS ++ ": " ++
        (if pyStrip err = "" then "unknown output" else pyStrip err)
      { events := pre ++ [Event.error m, Event.finished "" "" m],
        calls := [primaryCall path] }
  | SubprocResult.timedOut =>
    { events := preEvents ++
        [Event.error Strings.ERROR_TIMEOUT,
         Event.finished "" "" Strings.ERROR_TIMEOUT],
      calls := [primaryCall path] }
  | SubprocResult.raised m =>
    let em := Strings.ERROR_UNKNOWN ++ ": " ++ m
    { events := preEvents ++ [Event.error em, Event.finished "" "" em],
      calls := [primaryCall path] }

/-- Model of `KeyGenerationWorker.run`: perform the primary invocation and
continue with `runWith` on its outcome. -/
def KeyGenerationWorker.run (env : Env) (path : String) : RunTrace :=
  KeyGenerationWorker.runWith env path (subprocessRun env (primaryCall path))

/-- Observable effects performed by the `AgeKeyGeneratorWindow` handlers:
message boxes, clipboard writes, status-bar text, file writes and permission
changes, updating the two key text fields, and re-enabling the generate
button. -/
inductive UiEffect
  | warning (title msg : String)
  | criticalDialog (title msg : String)
  | clipboard (text : String)
  | statusText (msg : String)
  | fileWrite (path content : String)
  | chmod (path : String) (mode : Nat)
  | setPrivateText (text : String)
  | setPublicText (text : String)
  | enableGenerate
deriving DecidableEq

/-- Model of `AgeKeyGeneratorWindow._on_generation_error`: set the status
label to `STATUS_ERROR`, re-enable the generate button, and open a critical
message box with the error text. -/
def onGenerationError (msg : String) : List UiEffect :=
  [UiEffect.statusText Strings.STATUS_ERROR, UiEffect.enableGenerate,
   UiEffect.criticalDialog Strings.ERROR_TITLE msg]

/-- Model of `AgeKeyGeneratorWindow._on_generation_finished`: a non-empty
error string is delegated to `_on_generation_error`; otherwise the two key
fields are set, the status label shows success, and the button is
re-enabled. -/
def onGenerationFinished (privateKey publicKey errorMsg : String) : List UiEffect :=
  if errorMsg ≠ "" then onGenerationError errorMsg
  else
    [UiEffect.setPrivateText privateKey, UiEffect.setPublicText publicKey,
     UiEffect.statusText Strings.STATUS_SUCCESS, UiEffect.enableGenerate]

/-- The signal connections made in `AgeKeyGeneratorWindow._start_key_generation`:
`progress` drives the status label, `error` drives `_on_generation_error`,
`finished` drives `_on_generation_finished` (the `started` signal is never
connected; the remaining `finished` connections only tear down the thread). -/
def uiHandleEvent : Event → List UiEffect
  | Event.started => []
  | Event.progress m => [UiEffect.statusText m]
  | Event.error m => onGenerationError m
  | Event.finished p k e => onGenerationFinished p k e

/-- Effects the window performs when the worker's signals are delivered in
emission order. -/
def uiProcess (events : List Event) : List UiEffect :=
  (events.map uiHandleEvent).flatten

/-- Whether a UI effect is a critical message box (the way an error is
reported to the user). -/
def UiEffect.isCriticalDialog : UiEffect → Bool
  | UiEffect.criticalDialog _ _ => true
  | _ => false

/-- Whether an event is the worker's `finished` signal (the carrier of the
generation result). -/
def Event.isFinished : Event → Bool
  | Event.finished _ _ _ => true
  | _ => false

/-- Number of critical error dialogs among a list of UI effects. -/
def errorDialogCount (effects : List UiEffect) : Nat :=
  effects.countP UiEffect.isCriticalDialog

/-- Number of `finished` signals among a list of events. -/
def finishedCount (events : List Event) : Nat :=
  events.countP Event.isFinished

/-- The placeholder text of the key field selected by `is_private`. -/
def placeholderFor (is_private : Bool) : String :=
  if is_private then Strings.PLACEHOLDER_PRIVATE else Strings.PLACEHOLDER_PUBLIC

/-- Model of `AgeKeyGeneratorWindow._copy_key`: strip the displayed text,
warn and stop when it is empty or equals the (stripped) placeholder,
otherwise write it to the clipboard and report success in the status bar. -/
def copyKey (displayed : String) (is_private : Bool) : List UiEffect :=
  let key := pyStrip displayed
  let placeholder_key := pyStrip (placeholderFor is_private)
  if key = "" ∨ key = placeholder_key then
    [UiEffect.warning Strings.WARNING_TITLE Strings.MSG_NO_KEY]
  else
    [UiEffect.clipboard key, UiEffect.statusText Strings.MSG_COPY_SUCCESS]

/-- The path actually written by `_save_key`: the dialog's path, with `.key`
appended for a private key whose lower-cased path does not already end in
`.key`. -/
def savePath (is_private : Bool) (dialogPath : String) : String :=
  if is_private && !(pyEndswith (pyLower dialogPath) ".key") then dialogPath ++ ".key"
  else dialogPath

/-- Model of `AgeKeyGeneratorWindow._save_key`.  `dialogPath` is what
`QFileDialog.getSaveFileName` returns (`""` when the user cancels);
`is_posix` is `os.name == "posix"`; `writeOk` is whether the `try` block
(open, write, and the conditional chmod) runs without an exception — when it
does not, the model condenses the `except` branch to the single critical
"Save failed" dialog the source shows, abstracting the exception text. -/
def saveKey (displayed : String) (is_private : Bool) (dialogPath : String)
    (is_posix writeOk : Bool) : List UiEffect :=
  let key := pyStrip displayed
  let placeholder_key := pyStrip (placeholderFor is_private)
  if key = "" ∨ key = placeholder_key then
    [UiEffect.warning Strings.WARNING_TITLE Strings.MSG_NO_KEY]
  else if dialogPath = "" then []
  else
    let path := savePath is_private dialogPath
    if writeOk then
      [UiEffect.fileWrite path key] ++
        (if is_posix && is_private then [UiEffect.chmod path 0o600] else []) ++
        [UiEffect.statusText Strings.MSG_SAVE_SUCCESS]
    else
      [UiEffect.criticalDialog Strings.ERROR_TITLE "Save failed"]

/-- A substring relation on strings: `sub` occurs contiguously in `s`. -/
def substrOf (sub s : String) : Prop :=
  ∃ p q : String, s = p ++ sub ++ q

/-- Environment whose primary invocation prints a private key line followed by
a bare `age1` public key line. -/
def envBothKeys : Env :=
  fun _ => SubprocResult.completed 0 "AGE-SECRET-KEY-1ABC\nage1xyz" ""

/-- Environment whose primary invocation prints only a private key line; any
other invocation would exit cleanly printing an `age1` value (so only the
text-mode stdin rejection keeps the secondary derivation from succeeding). -/
def envOnlyPrivate : Env :=
  fun c =>
    if c.timeout = 30 then SubprocResult.completed 0 "AGE-SECRET-KEY-1ABC" ""
    else SubprocResult.completed 0 "age1derived" ""

/-- Environment whose primary invocation prints a private key line followed by
a `# public key:` comment carrying the value. -/
def envCommentKey : Env :=
  fun _ =>
    SubprocResult.completed 0 "AGE-SECRET-KEY-1ABCDEF\n# public key: age1xyz" ""

/-- Environment whose primary invocation exits cleanly but prints no
private-key line (an `age1` line is present, yet irrelevant). -/
def envNoPrivate : Env :=
  fun _ => SubprocResult.completed 0 "hello\nage1xyz" "world"

/-- Environment whose primary invocation exits with status 1 and a stderr
text that carries a trailing newline. -/
def envExitOne : Env :=
  fun _ => SubprocResult.completed 1 "" "boom\n"

/-- Environment whose primary invocation exits with status 1 and a stderr
text padded with whitespace. -/
def envExitOnePadded : Env :=
  fun _ => SubprocResult.completed 1 "" " some error text "

/-- Environment whose primary invocation prints a `# public key:` comment
whose value is empty, followed by a later bare `age1` line. -/
def envEmptyComment : Env :=
  fun _ =>
    SubprocResult.completed 0 "AGE-SECRET-KEY-1X\n# public key:\nage1later" ""

end AgeKeygen

namespace AgeKeygen

/-- Appending strings concatenates their character lists. -/
theorem strAppend_data (s t : String) : (s ++ t).data = s.data ++ t.data := rfl

/-- A string whose left part has characters is not the empty string. -/
theorem strAppend_left_ne_empty (a b : String) (h : a.data ≠ []) : a ++ b ≠ "" := by
  intro he
  have hd : (a ++ b).data = ([] : List Char) := by rw [he]
  rw [strAppend_data] at hd
  exact h (List.append_eq_nil.mp hd).1

/-- The private-key scan returns the empty string or a string carrying the
`AGE-SECRET-KEY-` prefix. -/
theorem extractPrivateLines_empty_or_prefixed (ls : List String) :
    extractPrivateLines ls = "" ∨
      pyStartswith (extractPrivateLines ls) "AGE-SECRET-KEY-" = true := by
  induction ls with
  | nil => exact Or.inl rfl
  | cons l ls ih =>
    simp only [extractPrivateLines]
    by_cases h : pyStartswith (pyStrip l) "AGE-SECRET-KEY-" = true
    · right; simp only [h, if_true]
    · simp only [h, if_false]; exact ih

/-- When no stripped line carries the private-key prefix, the private-key
scan returns the empty string. -/
theorem extractPrivateLines_of_no_match (ls : List String)
    (h : ∀ l ∈ ls, pyStartswith (pyStrip l) "AGE-SECRET-KEY-" = false) :
    extractPrivateLines ls = "" := by
  induction ls with
  | nil => rfl
  | cons l ls ih =>
    simp only [extractPrivateLines]
    have hl := h l (List.mem_cons_self l ls)
    simp only [hl, Bool.false_eq_true, if_false]
    exact ih fun x hx => h x (List.mem_cons_of_mem l hx)

/-- The secondary derivation always returns the fixed placeholder: its
`subprocess.run` call passes a bytes stdin payload (`private_key.encode`)
together with `text=True`, which raises before any output is produced, and
`_derive_public_key` swallows every exception into `ERROR_EXPORT_PUBLIC`. -/
theorem derivePublicKey_eq_placeholder (env : Env) (path pk : String) :
    derivePublicKey env path pk = Strings.ERROR_EXPORT_PUBLIC := by
  simp [derivePublicKey, subprocessRun, deriveCall, SubprocInput.isBytes]

/-- Every trace of the worker opens with `started`, progress `Initializing`
and `Running`, and closes with a single `finished` signal: on the success
path the private key is non-empty and carries the `AGE-SECRET-KEY-` prefix,
the public key is non-empty, and the intervening progress signals are
`Extracting` then optionally `Exporting` then `Done`; on every failure path a
non-empty message is emitted through `error` directly followed by the final
`finished`. -/
theorem run_shape (env : Env) (path : String) :
    (∃ priv pub,
        priv ≠ "" ∧ pyStartswith priv "AGE-SECRET-KEY-" = true ∧ pub ≠ "" ∧
        ((KeyGenerationWorker.run env path).events =
            preEvents ++
              [Event.progress Strings.STATUS_EXTRACTING_PUBLIC,
               Event.progress Strings.STATUS_DONE,
               Event.finished priv pub ""] ∨
          (KeyGenerationWorker.run env path).events =
            preEvents ++
              [Event.progress Strings.STATUS_EXTRACTING_PUBLIC,
               Event.progress Strings.STATUS_EXPORTING_PUBLIC,
               Event.progress Strings.STATUS_DONE,
               Event.finished priv pub ""])) ∨
    (∃ m, m ≠ "" ∧
        (KeyGenerationWorker.run env path).events =
          preEvents ++ [Event.error m, Event.finished "" "" m]) := by
  rcases hres : subprocessRun env (primaryCall path) with ⟨exitcode, out, err⟩ | _ | m
  · rw [KeyGenerationWorker.run, hres]
    by_cases hz : exitcode = 0
    · subst hz
      by_cases hp : extractPrivateKey (out ++ err) = ""
      · exact Or.inr ⟨Strings.ERROR_NO_PRIVATE_KEY, by decide,
          by simp [KeyGenerationWorker.runWith, hp]⟩
      · have hpre : pyStartswith (extractPrivateKey (out ++ err)) "AGE-SECRET-KEY-" = true := by
          rcases extractPrivateLines_empty_or_prefixed (pySplitLines (out ++ err)) with h | h
          · exact absurd h hp
          · exact h
        by_cases hq : extractPublicKey (out ++ err) = ""
        · refine Or.inl ⟨extractPrivateKey (out ++ err), Strings.ERROR_EXPORT_PUBLIC,
            hp, hpre, by decide, Or.inr ?_⟩
          simp [KeyGenerationWorker.runWith, hp, hq, derivePublicKey_eq_placeholder]
        · refine Or.inl ⟨extractPrivateKey (out ++ err), extractPublicKey (out ++ err),
            hp, hpre, hq, Or.inl ?_⟩
          simp [KeyGenerationWorker.runWith, hp, hq]
    · refine Or.inr ⟨Strings.ERROR_SUBPROCESS ++ ": " ++
        (if pyStrip err = "" then "unknown output" else pyStrip err),
        strAppend_left_ne_empty _ _ (by decide), ?_⟩
      simp [KeyGenerationWorker.runWith, hz]
  · rw [KeyGenerationWorker.run, hres]
    exact Or.inr ⟨Strings.ERROR_TIMEOUT, by decide, by simp [KeyGenerationWorker.runWith]⟩
  · rw [KeyGenerationWorker.run, hres]
    exact Or.inr ⟨Strings.ERROR_UNKNOWN ++ ": " ++ m,
      strAppend_left_ne_empty _ _ (by decide),
      by simp [KeyGenerationWorker.runWith]⟩

/-- C1: every run that reports success — emits `finished` with an empty error
string — reports a private key carrying the `AGE-SECRET-KEY-` prefix and a
non-empty public key, including runs that went through the secondary
derivation path (whose public key is the non-empty placeholder). -/
theorem c1_success_reports_valid_keys (env : Env) (path p k : String)
    (h : Event.finished p k "" ∈ (KeyGenerationWorker.run env path).events) :
    pyStartswith p "AGE-SECRET-KEY-" = true ∧ k ≠ "" := by
  rcases run_shape env path with ⟨priv, pub, _, hpre, hpub, hev | hev⟩ | ⟨m, hm, hev⟩
  · rw [hev] at h
    simp [preEvents] at h
    obtain ⟨rfl, rfl⟩ := h
    exact ⟨hpre, hpub⟩
  · rw [hev] at h
    simp [preEvents] at h
    obtain ⟨rfl, rfl⟩ := h
    exact ⟨hpre, hpub⟩
  · rw [hev] at h
    simp [preEvents] at h
    exact absurd h.2.2.symm hm

/-- Witness for C1 at a concrete environment whose primary output holds both
key lines. -/
theorem c1_success_reports_valid_keys_witness :
    Event.finished "AGE-SECRET-KEY-1ABC" "age1xyz" "" ∈
      (KeyGenerationWorker.run envBothKeys "age-keygen").events ∧
    (pyStartswith "AGE-SECRET-KEY-1ABC" "AGE-SECRET-KEY-" = true ∧
      "age1xyz" ≠ "") :=
  ⟨by decide,
   c1_success_reports_valid_keys envBothKeys "age-keygen" "AGE-SECRET-KEY-1ABC"
     "age1xyz" (by decide)⟩

/-- C6: every trace of a single run follows the fixed state-machine order —
`started`, then progress `Initializing` and `Running`, then (on the success
path, recognised by an empty error field) progress `ExtractingPublicKey`,
optionally `ExportingPublicKey`, then `Done`; the terminal `finished` signal
carrying the result is always the last event, no earlier event being a
`finished`, and on failure the only intervening event is the `error`
signal. -/
theorem c6_event_order (env : Env) (path : String) :
    ∃ (mid : List Event) (p k e : String),
      (KeyGenerationWorker.run env path).events =
        Event.started :: Event.progress Strings.STATUS_INITIALIZING ::
          Event.progress Strings.STATUS_RUNNING :: (mid ++ [Event.finished p k e]) ∧
      (∀ ev ∈ mid, ev.isFinished = false) ∧
      (e = "" →
        mid = [Event.progress Strings.STATUS_EXTRACTING_PUBLIC,
               Event.progress Strings.STATUS_DONE] ∨
        mid = [Event.progress Strings.STATUS_EXTRACTING_PUBLIC,
               Event.progress Strings.STATUS_EXPORTING_PUBLIC,
               Event.progress Strings.STATUS_DONE]) ∧
      (e ≠ "" → mid = [Event.error e]) := by
  rcases run_shape env path with ⟨priv, pub, _, _, _, hev | hev⟩ | ⟨m, hm, hev⟩
  · refine ⟨[Event.progress Strings.STATUS_EXTRACTING_PUBLIC,
      Event.progress Strings.STATUS_DONE], priv, pub, "", ?_, ?_, fun _ => Or.inl rfl,
      fun hne => absurd rfl hne⟩
    · rw [hev]; rfl
    · intro ev hev'
      simp only [List.mem_cons, List.not_mem_nil, or_false] at hev'
      rcases hev' with rfl | rfl <;> rfl
  · refine ⟨[Event.progress Strings.STATUS_EXTRACTING_PUBLIC,
      Event.progress Strings.STATUS_EXPORTING_PUBLIC,
      Event.progress Strings.STATUS_DONE], priv, pub, "", ?_, ?_, fun _ => Or.inr rfl,
      fun hne => absurd rfl hne⟩
    · rw [hev]; rfl
    · intro ev hev'
      simp only [List.mem_cons, List.not_mem_nil, or_false] at hev'
      rcases hev' with rfl | rfl | rfl <;> rfl
  · refine ⟨[Event.error m], "", "", m, ?_, ?_, fun he => absurd he hm, fun _ => rfl⟩
    · rw [hev]; rfl
    · intro ev hev'
      simp only [List.mem_cons, List.not_mem_nil, or_false] at hev'
      rcases hev' with rfl
      rfl

/-- C4: whenever the primary invocation completes with exit status 0 but its
combined output contains no line that, once stripped, begins with
`AGE-SECRET-KEY-`, the task's trace is exactly `started`, progress
`Initializing` and `Running`, then the `error` signal and a final `finished`
signal both carrying `ERROR_NO_PRIVATE_KEY` with empty key strings — and no
further subprocess call is made, regardless of any other output content. -/
theorem c4_no_private_key_fails (env : Env) (path out err : String)
    (henv : subprocessRun env (primaryCall path) = SubprocResult.completed 0 out err)
    (hnone : ∀ l ∈ pySplitLines (out ++ err),
      pyStartswith (pyStrip l) "AGE-SECRET-KEY-" = false) :
    KeyGenerationWorker.run env path =
      { events := preEvents ++
          [Event.error Strings.ERROR_NO_PRIVATE_KEY,
           Event.finished "" "" Strings.ERROR_NO_PRIVATE_KEY],
        calls := [primaryCall path] } := by
  have hpk : extractPrivateKey (out ++ err) = "" :=
    extractPrivateLines_of_no_match _ hnone
  rw [KeyGenerationWorker.run, henv]
  simp [KeyGenerationWorker.runWith, hpk]

/-- Witness for C4 at a concrete environment: the output holds an `age1` line
and stderr noise but no private key line, and the task fails with
`ERROR_NO_PRIVATE_KEY`. -/
theorem c4_no_private_key_fails_witness :
    KeyGenerationWorker.run envNoPrivate "age-keygen" =
      { events := preEvents ++
          [Event.error Strings.ERROR_NO_PRIVATE_KEY,
           Event.finished "" "" Strings.ERROR_NO_PRIVATE_KEY],
        calls := [primaryCall "age-keygen"] } :=
  c4_no_private_key_fails envNoPrivate "age-keygen" "hello\nage1xyz" "world"
    (by decide) (by decide)

/-- C3: the public-key scan is single-pass — on each line, the `age1` prefix
test and then the `# public key:` comment test are both applied before the
scan moves to the next line (first conjunct, the per-line unfolding of the
scan), and on the output `AGE-SECRET-KEY-1ABCDEF\n# public key: age1xyz` the
task succeeds with private key `AGE-SECRET-KEY-1ABCDEF` and public key
`age1xyz` while making only the primary subprocess call (second conjunct). -/
theorem c3_public_scan_single_pass :
    (∀ (l : String) (ls : List String),
      extractPublicLines (l :: ls) =
        (if pyStartswith (pyStrip l) "age1" then pyStrip l
         else if pyStartswith (pyStrip l) "# public key:" then
           pyStrip (pyReplace (pyStrip l) "# public key:" "")
         else extractPublicLines ls)) ∧
    KeyGenerationWorker.run envCommentKey "age-keygen" =
      { events := preEvents ++
          [Event.progress Strings.STATUS_EXTRACTING_PUBLIC,
           Event.progress Strings.STATUS_DONE,
           Event.finished "AGE-SECRET-KEY-1ABCDEF" "age1xyz" ""],
        calls := [primaryCall "age-keygen"] } := by
  constructor
  · intro l ls
    simp only [extractPublicLines]
  · decide

/-- C2: whenever the primary invocation completes cleanly with a private-key
line in its output but no line matching either public-key predicate, the task
makes exactly one more subprocess call, whose description is the executable
with the `-y` flag, the discovered private key as (bytes) stdin payload, and a
10-second timeout; that secondary invocation fails (its bytes payload is
rejected by the text-mode streams), and the task still reports success — a
`finished` signal with empty error — with the public key equal to the fixed
placeholder `ERROR_EXPORT_PUBLIC` (`"Unable to derive Public Key"`). -/
theorem c2_secondary_derivation (env : Env) (path out err : String)
    (henv : subprocessRun env (primaryCall path) = SubprocResult.completed 0 out err)
    (hpriv : extractPrivateKey (out ++ err) ≠ "")
    (hpub : extractPublicKey (out ++ err) = "") :
    (KeyGenerationWorker.run env path).calls =
      [primaryCall path, deriveCall path (extractPrivateKey (out ++ err))] ∧
    deriveCall path (extractPrivateKey (out ++ err)) =
      { args := [path, "-y"],
        input := SubprocInput.bytes (extractPrivateKey (out ++ err)),
        textMode := true, timeout := 10 } ∧
    (∃ m, subprocessRun env (deriveCall path (extractPrivateKey (out ++ err))) =
      SubprocResult.raised m) ∧
    (KeyGenerationWorker.run env path).events =
      preEvents ++
        [Event.progress Strings.STATUS_EXTRACTING_PUBLIC,
         Event.progress Strings.STATUS_EXPORTING_PUBLIC,
         Event.progress Strings.STATUS_DONE,
         Event.finished (extractPrivateKey (out ++ err))
           Strings.ERROR_EXPORT_PUBLIC ""] := by
  rw [KeyGenerationWorker.run, henv]
  refine ⟨?_, rfl, ⟨_, rfl⟩, ?_⟩
  · simp [KeyGenerationWorker.runWith, hpriv, hpub]
  · simp [KeyGenerationWorker.runWith, hpriv, hpub, derivePublicKey_eq_placeholder]

/-- Witness for C2 at a concrete environment whose primary output holds only
the private key line (and which would happily print a public key for any
other invocation). -/
theorem c2_secondary_derivation_witness :
    extractPrivateKey ("AGE-SECRET-KEY-1ABC" ++ "") ≠ "" ∧
    extractPublicKey ("AGE-SECRET-KEY-1ABC" ++ "") = "" ∧
    (KeyGenerationWorker.run envOnlyPrivate "age-keygen").calls =
      [primaryCall "age-keygen",
       deriveCall "age-keygen" (extractPrivateKey ("AGE-SECRET-KEY-1ABC" ++ ""))] :=
  ⟨by decide, by decide,
   (c2_secondary_derivation envOnlyPrivate "age-keygen" "AGE-SECRET-KEY-1ABC" ""
     (by decide) (by decide) (by decide)).1⟩

/-- The public-key scan returns the (possibly empty) comment value of the
first matching line, whatever lines follow it. -/
theorem extractPublicLines_stops_at_first_match (pre : List String) (c : String)
    (rest : List String)
    (hpre : ∀ l ∈ pre, pyStartswith (pyStrip l) "age1" = false ∧
      pyStartswith (pyStrip l) "# public key:" = false)
    (hc1 : pyStartswith (pyStrip c) "age1" = false)
    (hc2 : pyStartswith (pyStrip c) "# public key:" = true) :
    extractPublicLines (pre ++ c :: rest) =
      pyStrip (pyReplace (pyStrip c) "# public key:" "") := by
  induction pre with
  | nil =>
    simp only [List.nil_append, extractPublicLines, hc1, hc2, Bool.false_eq_true,
      if_false, if_true]
  | cons l ls ih =>
    obtain ⟨h1, h2⟩ := hpre l (List.mem_cons_self l ls)
    simp only [List.cons_append, extractPublicLines, h1, h2, Bool.false_eq_true,
      if_false]
    exact ih fun x hx => hpre x (List.mem_cons_of_mem l hx)

/-- C9: when the first output line matching either public-key predicate is a
`# public key:` comment whose value strips to the empty string, the scan
stops there — whatever lines (in particular `age1` lines) follow, the scan
result is the empty string — and the task proceeds to the secondary
derivation path exactly as if no public key had been found. -/
theorem c9_empty_comment_stops_scan (env : Env) (path out err : String)
    (pre : List String) (c : String) (rest : List String)
    (hsplit : pySplitLines (out ++ err) = pre ++ c :: rest)
    (hpre : ∀ l ∈ pre, pyStartswith (pyStrip l) "age1" = false ∧
      pyStartswith (pyStrip l) "# public key:" = false)
    (hc1 : pyStartswith (pyStrip c) "age1" = false)
    (hc2 : pyStartswith (pyStrip c) "# public key:" = true)
    (hc3 : pyStrip (pyReplace (pyStrip c) "# public key:" "") = "")
    (hpriv : extractPrivateKey (out ++ err) ≠ "")
    (henv : subprocessRun env (primaryCall path) = SubprocResult.completed 0 out err) :
    extractPublicKey (out ++ err) = "" ∧
    (KeyGenerationWorker.run env path).calls =
      [primaryCall path, deriveCall path (extractPrivateKey (out ++ err))] ∧
    (KeyGenerationWorker.run env path).events =
      preEvents ++
        [Event.progress Strings.STATUS_EXTRACTING_PUBLIC,
         Event.progress Strings.STATUS_EXPORTING_PUBLIC,
         Event.progress Strings.STATUS_DONE,
         Event.finished (extractPrivateKey (out ++ err))
           Strings.ERROR_EXPORT_PUBLIC ""] := by
  have hpub : extractPublicKey (out ++ err) = "" := by
    rw [extractPublicKey, hsplit,
      extractPublicLines_stops_at_first_match pre c rest hpre hc1 hc2, hc3]
  refine ⟨hpub, ?_, ?_⟩ <;> rw [KeyGenerationWorker.run, henv]
  · simp [KeyGenerationWorker.runWith, hpriv, hpub]
  · simp [KeyGenerationWorker.runWith, hpriv, hpub, derivePublicKey_eq_placeholder]

/-- Witness for C9 at a concrete environment: the output holds a private key
line, then a bare `# public key:` comment, then a line that does begin with
`age1`; the scan still comes back empty and the secondary call is made. -/
theorem c9_empty_comment_stops_scan_witness :
    pyStartswith (pyStrip "age1later") "age1" = true ∧
    extractPublicKey ("AGE-SECRET-KEY-1X\n# public key:\nage1later" ++ "") = "" ∧
    (KeyGenerationWorker.run envEmptyComment "age-keygen").calls =
      [primaryCall "age-keygen",
       deriveCall "age-keygen"
         (extractPrivateKey ("AGE-SECRET-KEY-1X\n# public key:\nage1later" ++ ""))] := by
  have h := c9_empty_comment_stops_scan envEmptyComment "age-keygen"
    "AGE-SECRET-KEY-1X\n# public key:\nage1later" ""
    ["AGE-SECRET-KEY-1X"] "# public key:" ["age1later"]
    (by decide) (by decide) (by decide) (by decide) (by decide) (by decide) (by decide)
  exact ⟨by decide, h.1, h.2.1⟩

/-- Characters of a substring occur in the enclosing string. -/
theorem substr_char_mem {sub s : String} {ch : Char} (h : substrOf sub s)
    (hc : ch ∈ sub.data) : ch ∈ s.data := by
  obtain ⟨p, q, rfl⟩ := h
  simp [strAppend_data, List.mem_append, hc]

/-- Two strings with the same characters are equal. -/
theorem str_ext {a b : String} (h : a.data = b.data) : a = b :=
  congrArg String.mk h

/-- A string starts with its own left append part. -/
theorem pyStartswith_append (a b : String) : pyStartswith (a ++ b) a = true := by
  rw [pyStartswith, strAppend_data, List.isPrefixOf_iff_prefix]
  exact List.prefix_append a.data b.data

/-- C5 counterexample to the claim as stated: with a primary invocation that
exits with status 1 and captured stderr `"boom\n"`, the reported message is
`"age-keygen execution failed: boom"` — the stderr text is stripped first, so
the message does not contain the captured standard-error text `"boom\n"`
itself. -/
theorem c5_counterexample :
    envExitOne (primaryCall "age-keygen") =
      SubprocResult.completed 1 "" "boom\n" ∧
    (KeyGenerationWorker.run envExitOne "age-keygen").events =
      preEvents ++
        [Event.error "age-keygen execution failed: boom",
         Event.finished "" "" "age-keygen execution failed: boom"] ∧
    ¬ substrOf "boom\n" "age-keygen execution failed: boom" := by
  refine ⟨by decide, by decide, fun h => ?_⟩
  have hn : '\n' ∈ "age-keygen execution failed: boom".data :=
    substr_char_mem h (by decide)
  exact absurd hn (by decide)

/-- C5 (amended): whenever the primary invocation completes with a non-zero
exit status, the trace fails through the `CalledProcessError` branch: the
reported message starts with the `ERROR_SUBPROCESS` classification text and
contains the whitespace-stripped captured stderr (or the fixed text
`"unknown output"` when the stripped stderr is empty), and it is carried by
the `error` signal and the final `finished` signal. -/
theorem c5_tool_execution_failed (env : Env) (path out err : String) (exitcode : Int)
    (henv : subprocessRun env (primaryCall path) =
      SubprocResult.completed exitcode out err)
    (hnz : exitcode ≠ 0) :
    (KeyGenerationWorker.run env path).events =
      preEvents ++
        [Event.error (Strings.ERROR_SUBPROCESS ++ ": " ++
           (if pyStrip err = "" then "unknown output" else pyStrip err)),
         Event.finished "" ""
           (Strings.ERROR_SUBPROCESS ++ ": " ++
             (if pyStrip err = "" then "unknown output" else pyStrip err))] ∧
    pyStartswith
      (Strings.ERROR_SUBPROCESS ++ ": " ++
        (if pyStrip err = "" then "unknown output" else pyStrip err))
      Strings.ERROR_SUBPROCESS = true ∧
    (pyStrip err ≠ "" →
      substrOf (pyStrip err)
        (Strings.ERROR_SUBPROCESS ++ ": " ++
          (if pyStrip err = "" then "unknown output" else pyStrip err))) := by
  refine ⟨?_, ?_, ?_⟩
  · rw [KeyGenerationWorker.run, henv]
    simp [KeyGenerationWorker.runWith, hnz]
  · have : Strings.ERROR_SUBPROCESS ++ ": " ++
        (if pyStrip err = "" then "unknown output" else pyStrip err) =
        Strings.ERROR_SUBPROCESS ++ (": " ++
          (if pyStrip err = "" then "unknown output" else pyStrip err)) :=
      str_ext (by simp [strAppend_data])
    rw [this]
    exact pyStartswith_append _ _
  · intro hne
    rw [if_neg hne]
    exact ⟨Strings.ERROR_SUBPROCESS ++ ": ", "",
      str_ext (by simp [strAppend_data])⟩

/-- Witness for C5 (amended) at a concrete environment: exit status 1 with a
whitespace-padded stderr; the stripped stderr occurs in the message. -/
theorem c5_tool_execution_failed_witness :
    (1 : Int) ≠ 0 ∧
    pyStrip " some error text " ≠ "" ∧
    substrOf (pyStrip " some error text ")
      (Strings.ERROR_SUBPROCESS ++ ": " ++
        (if pyStrip " some error text " = "" then "unknown output"
         else pyStrip " some error text ")) :=
  ⟨by decide, by decide,
   (c5_tool_execution_failed envExitOnePadded "age-keygen" "" " some error text " 1
     (by decide) (by decide)).2.2 (by decide)⟩

/-- C7 (code-bug evaluation): on a failing attempt — here the primary tool
exits 0 printing `hello` plus noise with no private-key line — the worker
emits exactly one `finished` signal (the single `GenerationResult`), but the
window's handlers open two critical error dialogs: one from the `error`
signal's connection to `_on_generation_error`, and a second from the
`finished` connection, because `_on_generation_finished` delegates a
non-empty error string to `_on_generation_error` again. -/
theorem c7_error_reported_twice :
    finishedCount (KeyGenerationWorker.run envNoPrivate "age-keygen").events = 1 ∧
    errorDialogCount
      (uiProcess (KeyGenerationWorker.run envNoPrivate "age-keygen").events) = 2 := by
  decide

/-- C8: when a save proceeds on a POSIX system (non-placeholder key, a path
chosen in the dialog, write succeeding), saving the private key writes the
file and then sets its permission mode to `0600`, while saving the public key
writes the file with no permission change. -/
theorem c8_save_key_permissions (displayed dialogPath : String) (is_private : Bool)
    (hkey : pyStrip displayed ≠ "")
    (hph : pyStrip displayed ≠ pyStrip (placeholderFor is_private))
    (hpath : dialogPath ≠ "") :
    saveKey displayed is_private dialogPath true true =
      (if is_private then
        [UiEffect.fileWrite (savePath true dialogPath) (pyStrip displayed),
         UiEffect.chmod (savePath true dialogPath) 0o600,
         UiEffect.statusText Strings.MSG_SAVE_SUCCESS]
      else
        [UiEffect.fileWrite (savePath false dialogPath) (pyStrip displayed),
         UiEffect.statusText Strings.MSG_SAVE_SUCCESS]) := by
  have hor : ¬ (pyStrip displayed = "" ∨
      pyStrip displayed = pyStrip (placeholderFor is_private)) := by
    intro h; rcases h with h | h
    · exact hkey h
    · exact hph h
  simp only [saveKey]
  rw [if_neg hor, if_neg hpath]
  cases is_private <;> simp

/-- Witness for C8: saving a displayed private key through a dialog path
without the `.key` suffix writes `mykey.key` and then chmods it to `0600`. -/
theorem c8_save_key_permissions_witness :
    pyStrip "AGE-SECRET-KEY-1ABC" ≠ "" ∧
    saveKey "AGE-SECRET-KEY-1ABC" true "mykey" true true =
      [UiEffect.fileWrite "mykey.key" "AGE-SECRET-KEY-1ABC",
       UiEffect.chmod "mykey.key" 0o600,
       UiEffect.statusText Strings.MSG_SAVE_SUCCESS] := by
  refine ⟨by decide, ?_⟩
  rw [c8_save_key_permissions "AGE-SECRET-KEY-1ABC" "mykey" true
    (by decide) (by decide) (by decide)]
  decide

/-- C10: a copy or save action taken while the displayed key strips to the
empty string or to the field's placeholder text performs exactly one effect —
the "no key" warning box — and in particular writes nothing to the clipboard
or the filesystem and changes no displayed text. -/
theorem c10_copy_save_guard (displayed : String) (is_private : Bool)
    (dialogPath : String) (is_posix writeOk : Bool)
    (h : pyStrip displayed = "" ∨
      pyStrip displayed = pyStrip (placeholderFor is_private)) :
    copyKey displayed is_private =
      [UiEffect.warning Strings.WARNING_TITLE Strings.MSG_NO_KEY] ∧
    saveKey displayed is_private dialogPath is_posix writeOk =
      [UiEffect.warning Strings.WARNING_TITLE Strings.MSG_NO_KEY] := by
  constructor
  · simp only [copyKey]
    rw [if_pos h]
  · simp only [saveKey]
    rw [if_pos h]

/-- Witness for C10: both actions on an empty private-key field produce only
the warning box. -/
theorem c10_copy_save_guard_witness :
    (pyStrip "" = "" ∨ pyStrip "" = pyStrip (placeholderFor true)) ∧
    copyKey "" true = [UiEffect.warning Strings.WARNING_TITLE Strings.MSG_NO_KEY] ∧
    saveKey "" true "somepath" true true =
      [UiEffect.warning Strings.WARNING_TITLE Strings.MSG_NO_KEY] :=
  ⟨Or.inl rfl,
   (c10_copy_save_guard "" true "somepath" true true (Or.inl rfl)).1,
   (c10_copy_save_guard "" true "somepath" true true (Or.inl rfl)).2⟩

end AgeKeygen
